import Mathlib

/-!
Shallow embedding of the fitness-tracker module (homework.py): a polymorphic
workout record with three variants (Running, SportsWalking, Swimming),
formula operations for distance, mean speed and spent calories, an info
message with a fixed-point 3-decimal renderer, and the dispatcher
read_package. Python floats are modelled as exact rationals; the Python
floor-division operator on values a and b is modelled as the rational cast
of the integer floor of a / b.
-/

namespace Homework

/-- The workout record. The base class Training of the source carries
action, duration and weight; SportsWalking adds height and Swimming adds
length_pool and count_pool. The source only ever instantiates the three
concrete subclasses, so the record is a closed sum. -/
inductive Training
  | Running (action duration weight : ℚ)
  | SportsWalking (action duration weight height : ℚ)
  | Swimming (action duration weight length_pool count_pool : ℚ)
  deriving DecidableEq, Repr

namespace Training

/-- Field action, shared by all variants (set by Training.__init__). -/
def action : Training → ℚ
  | Running a _ _ => a
  | SportsWalking a _ _ _ => a
  | Swimming a _ _ _ _ => a

/-- Field duration, shared by all variants (set by Training.__init__). -/
def duration : Training → ℚ
  | Running _ d _ => d
  | SportsWalking _ d _ _ => d
  | Swimming _ d _ _ _ => d

/-- Field weight, shared by all variants (set by Training.__init__). -/
def weight : Training → ℚ
  | Running _ _ w => w
  | SportsWalking _ _ w _ => w
  | Swimming _ _ w _ _ => w

/-- Class attribute LEN_STEP: 0.65 on the base class, overridden to 1.38
by Swimming. -/
def LEN_STEP : Training → ℚ
  | Running _ _ _ => 0.65
  | SportsWalking _ _ _ _ => 0.65
  | Swimming _ _ _ _ _ => 1.38

/-- Class attribute M_IN_KM = 1000, the meters-per-kilometer constant. -/
def M_IN_KM : ℚ := 1000

/-- Training.get_distance: action * LEN_STEP / M_IN_KM. -/
def get_distance (t : Training) : ℚ :=
  t.action * t.LEN_STEP / M_IN_KM

/-- Training.get_mean_speed: get_distance / duration on the base class;
Swimming overrides it with length_pool * count_pool / M_IN_KM / duration. -/
def get_mean_speed : Training → ℚ
  | Swimming _ d _ lp cp => lp * cp / M_IN_KM / d
  | t => t.get_distance / t.duration

/-- Running coefficient RUN_COEFF_1 = 18. -/
def RUN_COEFF_1 : ℚ := 18
/-- Running coefficient RUN_COEFF_2 = 20. -/
def RUN_COEFF_2 : ℚ := 20
/-- Minutes-per-hour constant MIN_IN_HOUR = 60. -/
def MIN_IN_HOUR : ℚ := 60
/-- Walking coefficient COEFF_WALK_1 = 0.035. -/
def COEFF_WALK_1 : ℚ := 0.035
/-- Walking coefficient COEFF_WALK_2 = 0.029. -/
def COEFF_WALK_2 : ℚ := 0.029
/-- Swimming coefficient SWM_COEFF_1 = 1.1. -/
def SWM_COEFF_1 : ℚ := 1.1
/-- Swimming coefficient SWM_COEFF_2 = 2. -/
def SWM_COEFF_2 : ℚ := 2

/-- Python floor division a // b on nonzero b: the float floor of a / b,
modelled as the rational cast of the integer floor. -/
def floorDiv (a b : ℚ) : ℚ := (⌊a / b⌋ : ℤ)

/-- Training.get_spent_calories, per variant, following the source line by
line. Running: (18 * speed - 20) * weight / M_IN_KM * (duration * 60).
SportsWalking: (0.035 * weight + (speed ^ 2 // height) * (0.029 * weight))
times (duration * 60). Swimming: (speed + 1.1) * 2 * weight. The base
class raises NotImplementedError, but is never instantiated. -/
def get_spent_calories : Training → ℚ
  | Running a d w =>
      let cal := RUN_COEFF_1 * (Running a d w).get_mean_speed - RUN_COEFF_2
      let duration_and_min_in_hour := d * MIN_IN_HOUR
      cal * w / M_IN_KM * duration_and_min_in_hour
  | SportsWalking a d w h =>
      let SPEED := (SportsWalking a d w h).get_mean_speed
      let DURATION_IN_MIN := d * MIN_IN_HOUR
      let COEFF_AND_WEIGHT_1 := COEFF_WALK_1 * w
      let COEFF_AND_WEIGHT_2 := floorDiv (SPEED ^ 2) h
      let COEFF_WALK_2_AND_WEIGHT := COEFF_WALK_2 * w
      let MEAN_SPEED_AND_WEIGHT := COEFF_AND_WEIGHT_2 * COEFF_WALK_2_AND_WEIGHT
      (COEFF_AND_WEIGHT_1 + MEAN_SPEED_AND_WEIGHT) * DURATION_IN_MIN
  | Swimming a d w lp cp =>
      let calories_1 := (Swimming a d w lp cp).get_mean_speed + SWM_COEFF_1
      calories_1 * SWM_COEFF_2 * w

/-- The Python class name of the variant, as produced by
self.__class__.__name__. -/
def className : Training → String
  | Running _ _ _ => "Running"
  | SportsWalking _ _ _ _ => "SportsWalking"
  | Swimming _ _ _ _ _ => "Swimming"

end Training

/-- The dataclass InfoMessage: training type label and the four numeric
summary fields. -/
structure InfoMessage where
  training_type : String
  duration : ℚ
  distance : ℚ
  speed : ℚ
  calories : ℚ
  deriving DecidableEq, Repr

/-- Training.show_training_info: build the InfoMessage from the class
name, the duration field and the three formula operations. -/
def Training.show_training_info (t : Training) : InfoMessage :=
  ⟨t.className, t.duration, t.get_distance, t.get_mean_speed,
    t.get_spent_calories⟩

/-- The two ways dispatching a package can fail in the source:
an unknown workout code raises with a fixed message (the
UnsupportedActivity kind of the specification), and unpacking a data list
whose length differs from the arity of the resolved constructor raises
(the ArityMismatch kind of the specification). -/
inductive DispatchError
  | unsupportedActivity (msg : String)
  | arityMismatch
  deriving DecidableEq, Repr

/-- The message of the NotImplementedError raised on an unknown workout
code, verbatim from the source. -/
def unsupportedMsg : String := "Данный вид тренировки отсутствует"

/-- Positional application of the Running constructor to a data list:
Running.__init__ takes exactly action, duration, weight. -/
def applyRunning : List ℚ → Except DispatchError Training
  | [a, d, w] => .ok (.Running a d w)
  | _ => .error .arityMismatch

/-- Positional application of the SportsWalking constructor to a data
list: action, duration, weight, height. -/
def applySportsWalking : List ℚ → Except DispatchError Training
  | [a, d, w, h] => .ok (.SportsWalking a d w h)
  | _ => .error .arityMismatch

/-- Positional application of the Swimming constructor to a data list:
action, duration, weight, length_pool, count_pool. -/
def applySwimming : List ℚ → Except DispatchError Training
  | [a, d, w, lp, cp] => .ok (.Swimming a d w lp cp)
  | _ => .error .arityMismatch

/-- read_package: look the workout code up in the dict mapping SWM, RUN
and WLK to the three constructors; raise NotImplementedError with the
fixed message when the code is absent, otherwise apply the constructor
positionally to the data. -/
def read_package (workout_type : String) (data : List ℚ) :
    Except DispatchError Training :=
  if workout_type = "SWM" then applySwimming data
  else if workout_type = "RUN" then applyRunning data
  else if workout_type = "WLK" then applySportsWalking data
  else .error (.unsupportedActivity unsupportedMsg)

/-!
Division-checked variants of the formula operations. Python raises
ZeroDivisionError when a divisor is zero; the source contains no guard, so
each division of the source becomes a checked division here, in the same
order as the source evaluates them, and a zero divisor yields none.
-/

/-- Checked division: none exactly when the divisor is zero. -/
def checkedDiv (a b : ℚ) : Option ℚ :=
  if b = 0 then none else some (a / b)

/-- Checked floor division (the Python // operator): none exactly when
the divisor is zero. -/
def checkedFloorDiv (a b : ℚ) : Option ℚ :=
  if b = 0 then none else some ((⌊a / b⌋ : ℤ) : ℚ)

namespace Training

/-- get_distance with its single division (by M_IN_KM) checked. -/
def get_distance_checked (t : Training) : Option ℚ :=
  checkedDiv (t.action * t.LEN_STEP) M_IN_KM

/-- get_mean_speed with every division checked: the base class divides
get_distance by duration; Swimming divides length_pool * count_pool first
by M_IN_KM and then by duration. -/
def get_mean_speed_checked : Training → Option ℚ
  | Swimming _ d _ lp cp => do
      let x ← checkedDiv (lp * cp) M_IN_KM
      checkedDiv x d
  | t => do
      let dist ← get_distance_checked t
      checkedDiv dist t.duration

/-- get_spent_calories with every division checked: Running divides by
M_IN_KM, SportsWalking floor-divides the squared speed by height, and
Swimming has no division of its own beyond the mean speed. -/
def get_spent_calories_checked : Training → Option ℚ
  | Running a d w => do
      let s ← get_mean_speed_checked (Running a d w)
      let cal := RUN_COEFF_1 * s - RUN_COEFF_2
      let duration_and_min_in_hour := d * MIN_IN_HOUR
      let x ← checkedDiv (cal * w) M_IN_KM
      pure (x * duration_and_min_in_hour)
  | SportsWalking a d w h => do
      let SPEED ← get_mean_speed_checked (SportsWalking a d w h)
      let COEFF_AND_WEIGHT_2 ← checkedFloorDiv (SPEED ^ 2) h
      pure ((COEFF_WALK_1 * w + COEFF_AND_WEIGHT_2 * (COEFF_WALK_2 * w))
        * (d * MIN_IN_HOUR))
  | Swimming a d w lp cp => do
      let s ← get_mean_speed_checked (Swimming a d w lp cp)
      pure ((s + SWM_COEFF_1) * SWM_COEFF_2 * w)

end Training

/-!
The reporter. The source formats each numeric field of the message with
the format specifier .3f: fixed point, exactly three digits after the
decimal point. The renderer below models that specifier over rationals:
it rounds the value times 1000 to the nearest integer and prints the
integer and fractional parts in decimal.
-/

/-- Decimal digit list of a natural number, most significant first, by
structural recursion on a fuel argument (the fuel n + 1 always suffices
since the argument shrinks by a factor of ten each step). -/
def natCharsFuel : ℕ → ℕ → List Char
  | 0, _ => []
  | fuel + 1, n =>
      if n < 10 then [Nat.digitChar n]
      else natCharsFuel fuel (n / 10) ++ [Nat.digitChar (n % 10)]

/-- Decimal digit list of a natural number, most significant first. -/
def natChars (n : ℕ) : List Char := natCharsFuel (n + 1) n

/-- A natural number below 1000 padded to exactly three decimal digits. -/
def pad3 (n : ℕ) : String :=
  ⟨[Nat.digitChar (n / 100 % 10), Nat.digitChar (n / 10 % 10),
    Nat.digitChar (n % 10)]⟩

/-- The .3f format specifier over rationals: sign, integer part, one
decimal point, exactly three fractional digits, rounding the value to
the nearest thousandth. -/
def formatFixed3 (q : ℚ) : String :=
  let n : ℤ := round (q * 1000)
  let m : ℕ := n.natAbs
  (if n < 0 then "-" else "") ++ ⟨natChars (m / 1000)⟩ ++ "." ++ pad3 (m % 1000)

/-- The characters after the last decimal point of a rendered string. -/
def afterLastDot (s : String) : List Char :=
  (s.data.reverse.takeWhile (fun c => !(c == '.'))).reverse

/-- InfoMessage.get_message: the fixed message template of the source
with the five fields substituted, each numeric field rendered by the .3f
specifier. -/
def InfoMessage.get_message (i : InfoMessage) : String :=
  "Тип тренировки: " ++ i.training_type
    ++ "; Длительность: " ++ formatFixed3 i.duration
    ++ " ч.; Дистанция: " ++ formatFixed3 i.distance
    ++ " км; Ср. скорость: " ++ formatFixed3 i.speed
    ++ " км/ч; Потрачено ккал: " ++ formatFixed3 i.calories ++ "."

/-! Helper lemmas about the decimal renderer. -/

lemma digitChar_isDigit : ∀ k < 10, (Nat.digitChar k).isDigit = true := by
  decide

lemma digitChar_ne_dot : ∀ k < 10, Nat.digitChar k ≠ '.' := by
  decide

lemma isDigit_ne_e {c : Char} (h : c.isDigit = true) : c ≠ 'e' ∧ c ≠ 'E' := by
  constructor <;> rintro rfl <;> exact absurd h (by decide)

lemma natCharsFuel_digits :
    ∀ (fuel n : ℕ), ∀ c ∈ natCharsFuel fuel n, c.isDigit = true := by
  intro fuel
  induction fuel with
  | zero => intro n c hc; simp [natCharsFuel] at hc
  | succ f ih =>
    intro n c hc
    rw [natCharsFuel] at hc
    by_cases hn : n < 10
    · rw [if_pos hn] at hc
      simp only [List.mem_singleton] at hc
      subst hc
      exact digitChar_isDigit n hn
    · rw [if_neg hn] at hc
      rcases List.mem_append.1 hc with h1 | h2
      · exact ih _ c h1
      · simp only [List.mem_singleton] at h2
        subst h2
        exact digitChar_isDigit _ (Nat.mod_lt _ (by norm_num))

lemma natChars_digits (n : ℕ) : ∀ c ∈ natChars n, c.isDigit = true :=
  natCharsFuel_digits _ _

lemma takeWhile_until_dot (r : List Char) :
    ∀ l : List Char, (∀ c ∈ l, c ≠ '.') →
      (l ++ '.' :: r).takeWhile (fun c => !(c == '.')) = l := by
  intro l
  induction l with
  | nil =>
    intro _
    rw [List.nil_append, List.takeWhile_cons]
    simp
  | cons a as ih =>
    intro hl
    have ha : a ≠ '.' := hl a (List.mem_cons_self a as)
    rw [List.cons_append, List.takeWhile_cons, if_pos (by simp [ha]),
      ih fun c hc => hl c (List.mem_cons_of_mem a hc)]

lemma pad3_data (k : ℕ) :
    (pad3 k).data = [Nat.digitChar (k / 100 % 10), Nat.digitChar (k / 10 % 10),
      Nat.digitChar (k % 10)] := rfl

lemma pad3_digits (k : ℕ) : ∀ c ∈ (pad3 k).data, c.isDigit = true := by
  intro c hc
  rw [pad3_data] at hc
  simp only [List.mem_cons, List.not_mem_nil, or_false] at hc
  rcases hc with rfl | rfl | rfl <;>
    exact digitChar_isDigit _ (Nat.mod_lt _ (by norm_num))

lemma afterLastDot_concat (s : String) (k : ℕ) :
    afterLastDot (s ++ "." ++ pad3 k) = (pad3 k).data := by
  have hne : ∀ c ∈ (pad3 k).data.reverse, c ≠ '.' := by
    intro c hc
    rw [List.mem_reverse, pad3_data] at hc
    simp only [List.mem_cons, List.not_mem_nil, or_false] at hc
    rcases hc with rfl | rfl | rfl <;>
      exact digitChar_ne_dot _ (Nat.mod_lt _ (by norm_num))
  have hdata : (s ++ "." ++ pad3 k).data
      = s.data ++ '.' :: (pad3 k).data := by
    rw [String.data_append, String.data_append]
    simp
  have hrev : (s.data ++ '.' :: (pad3 k).data).reverse
      = (pad3 k).data.reverse ++ '.' :: s.data.reverse := by
    simp
  rw [afterLastDot, hdata, hrev, takeWhile_until_dot _ _ hne,
    List.reverse_reverse]

end Homework

namespace Homework

/-- C1: for every SportsWalking record with positive height and duration,
get_spent_calories returns
(0.035 * weight + floor(speed ^ 2 / height) * 0.029 * weight) *
(duration * 60), where the floored quotient is nonnegative, so the
integer floor coincides with truncation. -/
theorem walking_calories_floor_formula (a d w h : ℚ)
    (hh : 0 < h) (hd : 0 < d) :
    Training.get_spent_calories (.SportsWalking a d w h)
      = (0.035 * w
          + (⌊(Training.get_mean_speed (.SportsWalking a d w h)) ^ 2 / h⌋ : ℚ)
            * 0.029 * w) * (d * 60)
    ∧ (0 : ℚ) ≤ (Training.get_mean_speed (.SportsWalking a d w h)) ^ 2 / h := by
  refine ⟨?_, div_nonneg (sq_nonneg _) hh.le⟩
  simp only [Training.get_spent_calories, Training.floorDiv,
    Training.COEFF_WALK_1, Training.COEFF_WALK_2, Training.MIN_IN_HOUR]
  ring

/-- Witness for C1 at the sample walking record (9000, 1, 75, 180). -/
theorem walking_calories_floor_formula_witness :
    Training.get_spent_calories (.SportsWalking 9000 1 75 180)
      = (0.035 * 75
          + (⌊(Training.get_mean_speed (.SportsWalking 9000 1 75 180)) ^ 2
              / 180⌋ : ℚ) * 0.029 * 75) * (1 * 60)
    ∧ (0 : ℚ)
        ≤ (Training.get_mean_speed (.SportsWalking 9000 1 75 180)) ^ 2 / 180 :=
  walking_calories_floor_formula 9000 1 75 180 (by norm_num) (by norm_num)

/-- C3 counterexample: on the Running input (15000, 1, 75) the spent
calories render as 699.750 at three decimals, not 645.750 as claimed. -/
theorem running_scenario_cex :
    formatFixed3 (Training.get_spent_calories (.Running 15000 1 75))
      = "699.750"
    ∧ "699.750" ≠ "645.750" := by
  constructor
  · have hc : Training.get_spent_calories (.Running 15000 1 75)
        = 2799 / 4 := by
      norm_num [Training.get_spent_calories, Training.get_mean_speed,
        Training.get_distance, Training.action, Training.duration,
        Training.LEN_STEP, Training.M_IN_KM, Training.RUN_COEFF_1,
        Training.RUN_COEFF_2, Training.MIN_IN_HOUR]
    have hr : round ((2799 / 4 : ℚ) * 1000) = 699750 := by
      rw [round_eq]; norm_num
    rw [hc, formatFixed3]
    norm_num [hr]
    decide
  · decide

/-- C3 amended: on the Running input (15000, 1, 75) the summary has
distance 9.750, mean speed 9.750, and calories equal to
(18 * 9.750 - 20) * 75 / 1000 * 60, which renders as 699.750 at three
decimals. -/
theorem running_scenario_values :
    Training.get_distance (.Running 15000 1 75) = 9.75
    ∧ Training.get_mean_speed (.Running 15000 1 75) = 9.75
    ∧ Training.get_spent_calories (.Running 15000 1 75)
        = (18 * 9.75 - 20) * 75 / 1000 * 60
    ∧ formatFixed3 ((18 * 9.75 - 20) * 75 / 1000 * 60) = "699.750" := by
  refine ⟨?_, ?_, ?_, ?_⟩
  · norm_num [Training.get_distance, Training.action, Training.LEN_STEP,
      Training.M_IN_KM]
  · norm_num [Training.get_mean_speed, Training.get_distance,
      Training.action, Training.duration, Training.LEN_STEP,
      Training.M_IN_KM]
  · norm_num [Training.get_spent_calories, Training.get_mean_speed,
      Training.get_distance, Training.action, Training.duration,
      Training.LEN_STEP, Training.M_IN_KM, Training.RUN_COEFF_1,
      Training.RUN_COEFF_2, Training.MIN_IN_HOUR]
  · have hv : (18 * (9.75 : ℚ) - 20) * 75 / 1000 * 60 = 2799 / 4 := by
      norm_num
    have hr : round ((2799 / 4 : ℚ) * 1000) = 699750 := by
      rw [round_eq]; norm_num
    rw [hv, formatFixed3]
    norm_num [hr]
    decide

/-- C4: for every Swimming record with positive duration, get_mean_speed
returns length_pool * count_pool / 1000 / duration, and the result does
not depend on the action count. -/
theorem swimming_mean_speed_formula (a a2 d w lp cp : ℚ) (hd : 0 < d) :
    Training.get_mean_speed (.Swimming a d w lp cp) = lp * cp / 1000 / d
    ∧ Training.get_mean_speed (.Swimming a d w lp cp)
        = Training.get_mean_speed (.Swimming a2 d w lp cp) := by
  exact ⟨by simp [Training.get_mean_speed, Training.M_IN_KM], rfl⟩

/-- Witness for C4 at the sample swimming record (720, 1, 80, 25, 40)
and a changed action count 9999. -/
theorem swimming_mean_speed_formula_witness :
    Training.get_mean_speed (.Swimming 720 1 80 25 40) = 25 * 40 / 1000 / 1
    ∧ Training.get_mean_speed (.Swimming 720 1 80 25 40)
        = Training.get_mean_speed (.Swimming 9999 1 80 25 40) :=
  swimming_mean_speed_formula 720 9999 1 80 25 40 (by norm_num)

/-- C5: for every record of every variant, get_distance returns
action * LEN_STEP / 1000, with LEN_STEP 0.65 for Running and
SportsWalking and 1.38 for Swimming, and M_IN_KM is the shared constant
1000. -/
theorem distance_formula :
    (∀ a d w, Training.get_distance (.Running a d w) = a * 0.65 / 1000)
    ∧ (∀ a d w h,
        Training.get_distance (.SportsWalking a d w h) = a * 0.65 / 1000)
    ∧ (∀ a d w lp cp,
        Training.get_distance (.Swimming a d w lp cp) = a * 1.38 / 1000)
    ∧ Training.M_IN_KM = 1000 := by
  refine ⟨?_, ?_, ?_, rfl⟩ <;>
    intros <;>
    simp [Training.get_distance, Training.action, Training.LEN_STEP,
      Training.M_IN_KM]

/-- C6: for every Running or SportsWalking record with positive duration,
get_mean_speed is exactly get_distance divided by the duration. -/
theorem mean_speed_distance_ratio (a d w h : ℚ) (hd : 0 < d) :
    Training.get_mean_speed (.Running a d w)
      = Training.get_distance (.Running a d w) / d
    ∧ Training.get_mean_speed (.SportsWalking a d w h)
      = Training.get_distance (.SportsWalking a d w h) / d :=
  ⟨rfl, rfl⟩

/-- Witness for C6 at the sample records (15000, 1, 75) and
(9000, 1, 75, 180). -/
theorem mean_speed_distance_ratio_witness :
    Training.get_mean_speed (.Running 15000 1 75)
      = Training.get_distance (.Running 15000 1 75) / 1
    ∧ Training.get_mean_speed (.SportsWalking 15000 1 75 180)
      = Training.get_distance (.SportsWalking 15000 1 75 180) / 1 :=
  mean_speed_distance_ratio 15000 1 75 180 (by norm_num)

/-- C2 counterexample: at the unknown code XYZ, read_package fails with
the fixed message of the source, and the code XYZ does not occur in that
message, so the message does not name the offending code. -/
theorem read_package_unknown_code_cex :
    read_package "XYZ" [] = .error (.unsupportedActivity unsupportedMsg)
    ∧ ¬ List.IsInfix ("XYZ".data) (unsupportedMsg.data) :=
  ⟨rfl, by decide⟩

/-- C2 amended: for every activity code other than SWM, RUN and WLK and
every field list, read_package fails with the UnsupportedActivity error
carrying the fixed message of the source (which does not name the
offending code); it never constructs a record. -/
theorem read_package_unknown_code (code : String) (data : List ℚ)
    (h1 : code ≠ "SWM") (h2 : code ≠ "RUN") (h3 : code ≠ "WLK") :
    read_package code data = .error (.unsupportedActivity unsupportedMsg) := by
  rw [read_package, if_neg h1, if_neg h2, if_neg h3]

/-- Witness for C2 at the code XYZ with an arbitrary field list. -/
theorem read_package_unknown_code_witness :
    read_package "XYZ" [1, 2, 3]
      = .error (.unsupportedActivity unsupportedMsg) :=
  read_package_unknown_code "XYZ" [1, 2, 3] (by decide) (by decide) (by decide)

/-- C7: for every known activity code, a field list whose length differs
from the arity of the resolved constructor (3 for Running, 4 for
SportsWalking, 5 for Swimming) makes read_package fail with the
ArityMismatch error. -/
theorem read_package_arity_mismatch (data : List ℚ) :
    (data.length ≠ 3 → read_package "RUN" data = .error .arityMismatch)
    ∧ (data.length ≠ 4 → read_package "WLK" data = .error .arityMismatch)
    ∧ (data.length ≠ 5 → read_package "SWM" data = .error .arityMismatch) := by
  refine ⟨fun hlen => ?_, fun hlen => ?_, fun hlen => ?_⟩
  · show applyRunning data = .error .arityMismatch
    rcases data with _ | ⟨a, _ | ⟨b, _ | ⟨c, _ | ⟨e, rest⟩⟩⟩⟩
    · rfl
    · rfl
    · rfl
    · exact absurd rfl hlen
    · rfl
  · show applySportsWalking data = .error .arityMismatch
    rcases data with _ | ⟨a, _ | ⟨b, _ | ⟨c, _ | ⟨e, _ | ⟨f, rest⟩⟩⟩⟩⟩
    · rfl
    · rfl
    · rfl
    · rfl
    · exact absurd rfl hlen
    · rfl
  · show applySwimming data = .error .arityMismatch
    rcases data with _ | ⟨a, _ | ⟨b, _ | ⟨c, _ | ⟨e, _ | ⟨f, _ | ⟨g, rest⟩⟩⟩⟩⟩⟩
    · rfl
    · rfl
    · rfl
    · rfl
    · rfl
    · exact absurd rfl hlen
    · rfl

/-- Witness for C7: the code RUN with only two fields fails with
ArityMismatch. -/
theorem read_package_arity_mismatch_witness :
    read_package "RUN" [100, 1] = .error .arityMismatch :=
  (read_package_arity_mismatch [100, 1]).1 (by decide)

/-- C10: every record read_package constructs from the code SWM carries
the label Swimming in its summary, every record from RUN the label
Running, and every record from WLK the label SportsWalking: the label is
the Python class name of the variant. -/
theorem summary_label_class_name (data : List ℚ) (t : Training) :
    (read_package "SWM" data = .ok t
      → (t.show_training_info).training_type = "Swimming")
    ∧ (read_package "RUN" data = .ok t
      → (t.show_training_info).training_type = "Running")
    ∧ (read_package "WLK" data = .ok t
      → (t.show_training_info).training_type = "SportsWalking") := by
  refine ⟨fun hok => ?_, fun hok => ?_, fun hok => ?_⟩
  · replace hok : applySwimming data = .ok t := hok
    rcases data with _ | ⟨a, _ | ⟨b, _ | ⟨c, _ | ⟨e, _ | ⟨f, _ | ⟨g, rest⟩⟩⟩⟩⟩⟩ <;>
      cases hok <;> rfl
  · replace hok : applyRunning data = .ok t := hok
    rcases data with _ | ⟨a, _ | ⟨b, _ | ⟨c, _ | ⟨e, rest⟩⟩⟩⟩ <;>
      cases hok <;> rfl
  · replace hok : applySportsWalking data = .ok t := hok
    rcases data with _ | ⟨a, _ | ⟨b, _ | ⟨c, _ | ⟨e, _ | ⟨f, rest⟩⟩⟩⟩⟩ <;>
      cases hok <;> rfl

/-- Witness for C10 at the sample swimming package. -/
theorem summary_label_class_name_witness :
    (Training.show_training_info
      (.Swimming 720 1 80 25 40)).training_type = "Swimming" :=
  (summary_label_class_name [720, 1, 80, 25, 40]
    (.Swimming 720 1 80 25 40)).1 rfl

/-- The rendering of the .3f specifier, with the let bindings expanded. -/
lemma formatFixed3_eq (q : ℚ) :
    formatFixed3 q
      = ((if (round (q * 1000) : ℤ) < 0 then "-" else "")
          ++ (⟨natChars ((round (q * 1000)).natAbs / 1000)⟩ : String))
        ++ "." ++ pad3 ((round (q * 1000)).natAbs % 1000) := rfl

/-- Every character the .3f renderer emits is a sign, a decimal point or
a decimal digit. -/
lemma formatFixed3_chars (q : ℚ) :
    ∀ c ∈ (formatFixed3 q).data, c = '-' ∨ c = '.' ∨ c.isDigit = true := by
  intro c hc
  rw [formatFixed3_eq, String.data_append, String.data_append,
    String.data_append] at hc
  rcases List.mem_append.1 hc with h1 | h2
  · rcases List.mem_append.1 h1 with h3 | h4
    · rcases List.mem_append.1 h3 with h5 | h6
      · by_cases hneg : (round (q * 1000) : ℤ) < 0
        · rw [if_pos hneg] at h5
          simp only [List.mem_singleton] at h5
          exact Or.inl h5
        · rw [if_neg hneg] at h5
          exact absurd h5 (List.not_mem_nil c)
      · exact Or.inr (Or.inr (natChars_digits _ c h6))
    · simp only [List.mem_singleton] at h4
      exact Or.inr (Or.inl h4)
  · exact Or.inr (Or.inr (pad3_digits _ c h2))

/-- C8: get_message produces the single fixed-form template of the
source with the five fields substituted, and the .3f renderer always
emits exactly three decimal digits after the decimal point, only digits
there, and never a scientific-exponent character. -/
theorem get_message_fixed_form :
    (∀ i : InfoMessage, i.get_message
      = "Тип тренировки: " ++ i.training_type
        ++ "; Длительность: " ++ formatFixed3 i.duration
        ++ " ч.; Дистанция: " ++ formatFixed3 i.distance
        ++ " км; Ср. скорость: " ++ formatFixed3 i.speed
        ++ " км/ч; Потрачено ккал: " ++ formatFixed3 i.calories ++ ".")
    ∧ (∀ q : ℚ, (afterLastDot (formatFixed3 q)).length = 3
        ∧ (∀ c ∈ afterLastDot (formatFixed3 q), c.isDigit = true)
        ∧ (∀ c ∈ (formatFixed3 q).data, c ≠ 'e' ∧ c ≠ 'E')) := by
  refine ⟨fun i => rfl, fun q => ⟨?_, ?_, ?_⟩⟩
  · rw [formatFixed3_eq, afterLastDot_concat, pad3_data]
    rfl
  · intro c hc
    rw [formatFixed3_eq, afterLastDot_concat] at hc
    exact pad3_digits _ c hc
  · intro c hc
    rcases formatFixed3_chars q c hc with rfl | rfl | hdig
    · exact ⟨by decide, by decide⟩
    · exact ⟨by decide, by decide⟩
    · exact isDigit_ne_e hdig

/-- Witness for C8 at the value 9.750. -/
theorem get_message_fixed_form_witness :
    (afterLastDot (formatFixed3 (9.75 : ℚ))).length = 3 :=
  (get_message_fixed_form.2 (9.75 : ℚ)).1

/-! Helper lemmas about checked division. -/

lemma checkedDiv_of_ne (a b : ℚ) (hb : b ≠ 0) :
    checkedDiv a b = some (a / b) := if_neg hb

lemma checkedDiv_zero (a : ℚ) : checkedDiv a 0 = none := if_pos rfl

lemma checkedFloorDiv_of_ne (a b : ℚ) (hb : b ≠ 0) :
    checkedFloorDiv a b = some ((⌊a / b⌋ : ℤ) : ℚ) := if_neg hb

lemma checkedFloorDiv_zero (a : ℚ) : checkedFloorDiv a 0 = none := if_pos rfl

lemma M_IN_KM_ne_zero : Training.M_IN_KM ≠ 0 := by
  norm_num [Training.M_IN_KM]

/-- C9: the formula operations carry no guard against a zero divisor:
with positive duration (and positive height for SportsWalking) every
division they perform has a nonzero divisor, so the checked operations
succeed, while duration zero makes the mean-speed and calories divisions
divide by zero, and height zero makes the SportsWalking floor division
divide by zero; the distance division is by the constant 1000 and never
divides by zero. -/
theorem formulas_unguarded_division :
    (∀ t : Training, (Training.get_distance_checked t).isSome = true)
    ∧ (∀ a d w : ℚ, 0 < d →
        (Training.get_mean_speed_checked (.Running a d w)).isSome = true
        ∧ (Training.get_spent_calories_checked (.Running a d w)).isSome
          = true)
    ∧ (∀ a d w h : ℚ, 0 < d → 0 < h →
        (Training.get_mean_speed_checked
          (.SportsWalking a d w h)).isSome = true
        ∧ (Training.get_spent_calories_checked
            (.SportsWalking a d w h)).isSome = true)
    ∧ (∀ a d w lp cp : ℚ, 0 < d →
        (Training.get_mean_speed_checked (.Swimming a d w lp cp)).isSome
          = true
        ∧ (Training.get_spent_calories_checked
            (.Swimming a d w lp cp)).isSome = true)
    ∧ (∀ t : Training, t.duration = 0 →
        Training.get_mean_speed_checked t = none
        ∧ Training.get_spent_calories_checked t = none)
    ∧ (∀ a d w : ℚ, 0 < d →
        Training.get_spent_calories_checked (.SportsWalking a d w 0)
          = none) := by
  refine ⟨?_, ?_, ?_, ?_, ?_, ?_⟩
  · intro t
    rw [Training.get_distance_checked, checkedDiv_of_ne _ _ M_IN_KM_ne_zero]
    rfl
  · intro a d w hd
    simp [Training.get_mean_speed_checked, Training.get_spent_calories_checked,
      Training.get_distance_checked, checkedDiv_of_ne _ _ M_IN_KM_ne_zero,
      checkedDiv_of_ne _ _ hd.ne', Training.duration]
  · intro a d w h hd hh
    simp [Training.get_mean_speed_checked, Training.get_spent_calories_checked,
      Training.get_distance_checked, checkedDiv_of_ne _ _ M_IN_KM_ne_zero,
      checkedDiv_of_ne _ _ hd.ne', checkedFloorDiv_of_ne _ _ hh.ne',
      Training.duration]
  · intro a d w lp cp hd
    simp [Training.get_mean_speed_checked, Training.get_spent_calories_checked,
      checkedDiv_of_ne _ _ M_IN_KM_ne_zero, checkedDiv_of_ne _ _ hd.ne']
  · intro t hd0
    cases t with
    | Running a d w =>
      rw [Training.duration] at hd0
      subst hd0
      simp [Training.get_mean_speed_checked,
        Training.get_spent_calories_checked, Training.get_distance_checked,
        checkedDiv_of_ne _ _ M_IN_KM_ne_zero, checkedDiv_zero,
        Training.duration]
    | SportsWalking a d w h =>
      rw [Training.duration] at hd0
      subst hd0
      simp [Training.get_mean_speed_checked,
        Training.get_spent_calories_checked, Training.get_distance_checked,
        checkedDiv_of_ne _ _ M_IN_KM_ne_zero, checkedDiv_zero,
        Training.duration]
    | Swimming a d w lp cp =>
      rw [Training.duration] at hd0
      subst hd0
      simp [Training.get_mean_speed_checked,
        Training.get_spent_calories_checked,
        checkedDiv_of_ne _ _ M_IN_KM_ne_zero, checkedDiv_zero]
  · intro a d w hd
    simp [Training.get_mean_speed_checked, Training.get_spent_calories_checked,
      Training.get_distance_checked, checkedDiv_of_ne _ _ M_IN_KM_ne_zero,
      checkedDiv_of_ne _ _ hd.ne', checkedFloorDiv_zero, Training.duration]

/-- Witness for C9: the sample Running record succeeds, a zero-duration
Running record divides by zero in the mean speed, and a zero-height
walking record divides by zero in the calories. -/
theorem formulas_unguarded_division_witness :
    (Training.get_mean_speed_checked (.Running 15000 1 75)).isSome = true
    ∧ Training.get_mean_speed_checked (.Running 15000 0 75) = none
    ∧ Training.get_spent_calories_checked (.SportsWalking 9000 1 75 0)
        = none :=
  ⟨(formulas_unguarded_division.2.1 15000 1 75 (by norm_num)).1,
    (formulas_unguarded_division.2.2.2.2.1 (.Running 15000 0 75) rfl).1,
    formulas_unguarded_division.2.2.2.2.2 9000 1 75 (by norm_num)⟩

end Homework
